import Mathlib

/-!
Shallow embedding of the FocusFlowPro habit-streak and focus-session logic.

The embedded code lives in `src/server/routes.ts` (the check-in handler at
POST /api/habits/:id/check-in and the session handlers at
POST /api/focus-sessions/start and /end) and `src/server/storage.ts`
(MemStorage.createHabit, updateHabit, createFocusSession,
updateFocusSession).  Timestamps appear in two disjoint roles: the habit
check-in reads only the calendar components getDate/getMonth/getFullYear
of a JS Date, while the session duration reads only getTime (epoch
milliseconds).  We therefore model habit timestamps as civil calendar
days and session timestamps as epoch milliseconds.
-/

namespace FocusFlow

/-- A calendar day as seen through the JS Date component accessors used by
the source: `getFullYear` (year), `getMonth` (0-based month, 0..11) and
`getDate` (1-based day of month). Time-of-day is never read by the
embedded habit code, so it is not modelled. -/
structure CivilDay where
  year : Int
  month : Nat
  day : Nat
deriving DecidableEq, Repr

/-- Gregorian leap-year rule, as implemented by JS Date normalization. -/
def isLeapYear (y : Int) : Bool :=
  (y % 4 == 0 && y % 100 != 0) || (y % 400 == 0)

/-- Number of days in 0-based month `m` of year `y` (JS Date month
numbering: 0 = January, 1 = February, ..., 11 = December). -/
def daysInMonth (y : Int) (m : Nat) : Nat :=
  if m = 1 then (if isLeapYear y then 29 else 28)
  else if m = 3 then 30
  else if m = 5 then 30
  else if m = 8 then 30
  else if m = 10 then 30
  else 31

/-- The componentwise same-calendar-day test from routes.ts lines 174-177
and 186-189: `a.getDate() === b.getDate() && a.getMonth() === b.getMonth()
&& a.getFullYear() === b.getFullYear()`. -/
def isSameDay (a b : CivilDay) : Bool :=
  a.day == b.day && a.month == b.month && a.year == b.year

/-- The calendar day immediately before `d`, as the source computes it at
routes.ts lines 184-185: `const yesterday = new Date(now);
yesterday.setDate(yesterday.getDate() - 1)`.  On a valid date JS
normalizes day 0 to the last day of the previous month (and December of
the previous year when the month is January). -/
def prevDay (d : CivilDay) : CivilDay :=
  if 2 ≤ d.day then ⟨d.year, d.month, d.day - 1⟩
  else if d.month = 0 then ⟨d.year - 1, 11, 31⟩
  else ⟨d.year, d.month - 1, daysInMonth d.year (d.month - 1)⟩

/-- `prevDay` iterated `k` times: the calendar day `k` days before `d`. -/
def prevDayIter : Nat → CivilDay → CivilDay
  | 0, d => d
  | k + 1, d => prevDay (prevDayIter k d)

/-- A habit record, after the drizzle schema `habits` table and the shape
MemStorage stores: id, name, nullable description, frequency, the two
streak counters, nullable last completion timestamp and creation
timestamp. -/
structure Habit where
  id : String
  name : String
  description : Option String
  frequency : String
  currentStreak : Int
  bestStreak : Int
  lastCompletedAt : Option CivilDay
  createdAt : CivilDay
deriving DecidableEq, Repr

/-- The insert payload for a habit (insertHabitSchema omits id, createdAt
and the streak fields). -/
structure InsertHabit where
  name : String
  description : Option String
  frequency : String
deriving DecidableEq, Repr

/-- MemStorage.createHabit (storage.ts lines 128-141): spreads the insert
payload, coerces a falsy description to null, and starts both streaks at
zero with no completion recorded.  `id` stands for the generated UUID and
`now` for the `new Date()` creation timestamp. -/
def createHabit (ins : InsertHabit) (id : String) (now : CivilDay) : Habit :=
  { id := id
    name := ins.name
    description :=
      match ins.description with
      | some d => if d = "" then none else some d
      | none => none
    frequency := ins.frequency
    currentStreak := 0
    bestStreak := 0
    lastCompletedAt := none
    createdAt := now }

/-- The two error outcomes of the embedded handlers: HTTP 404 "not found"
and HTTP 400 "Already checked in today". -/
inductive RouteError where
  | notFound
  | alreadyCheckedInToday
deriving DecidableEq, Repr

/-- The habit check-in computation from routes.ts lines 167-202, acting on
one habit record: reject when the last completion is on the same calendar
day as `now`; otherwise increment the streak when the last completion is
on the calendar day before `now` and reset it to 1 when not (also on a
first-ever check-in), track the best streak, and stamp `now` as the last
completion.  The `Habit` returned is the record the handler persists via
updateHabit, i.e. the stored habit with exactly `currentStreak`,
`bestStreak` and `lastCompletedAt` replaced. -/
def checkIn (habit : Habit) (now : CivilDay) : Except RouteError Habit :=
  match habit.lastCompletedAt with
  | some lastCompleted =>
    if isSameDay lastCompleted now then
      .error .alreadyCheckedInToday
    else
      let yesterday := prevDay now
      let isConsecutive := isSameDay lastCompleted yesterday
      let newStreak : Int := if isConsecutive then habit.currentStreak + 1 else 1
      let newBestStreak := max habit.bestStreak newStreak
      .ok { habit with
              currentStreak := newStreak
              bestStreak := newBestStreak
              lastCompletedAt := some now }
  | none =>
    let newStreak : Int := 1
    let newBestStreak := max habit.bestStreak newStreak
    .ok { habit with
            currentStreak := newStreak
            bestStreak := newBestStreak
            lastCompletedAt := some now }

/-- The in-memory habit map of MemStorage, keyed by id. -/
def HabitStore := String → Option Habit

/-- MemStorage.updateHabit (storage.ts lines 143-149) restricted to the
store update it performs: replace the record under `id`. -/
def putHabit (s : HabitStore) (id : String) (h : Habit) : HabitStore :=
  fun k => if k = id then some h else s k

/-- The whole POST /api/habits/:id/check-in handler (routes.ts lines
160-208): look the habit up (404 when absent), run the check-in
computation, and on success persist the updated record.  Returns the
resulting store together with the response. -/
def checkInRoute (s : HabitStore) (id : String) (now : CivilDay) :
    HabitStore × Except RouteError Habit :=
  match s id with
  | none => (s, .error .notFound)
  | some habit =>
    match checkIn habit now with
    | .error e => (s, .error e)
    | .ok h2 => (putHabit s id h2, .ok h2)

/-- Habits reachable from MemStorage.createHabit by any sequence of
successful check-ins (the only operations that write habit streak state
in the embedded scope). -/
inductive ReachableHabit : Habit → Prop
  | created (ins : InsertHabit) (id : String) (now : CivilDay) :
      ReachableHabit (createHabit ins id now)
  | checkedIn (h : Habit) (now : CivilDay) (h2 : Habit) :
      ReachableHabit h → checkIn h now = .ok h2 → ReachableHabit h2

/-- A focus-session record, after the drizzle schema `focus_sessions`
table: timestamps are epoch milliseconds (the only view the embedded
session code takes of them, via getTime). -/
structure FocusSession where
  id : String
  startTime : Int
  endTime : Option Int
  durationMinutes : Option Int
  sessionType : String
  taskId : Option String
  createdAt : Int
deriving DecidableEq, Repr

/-- The insert payload for a focus session (insertFocusSessionSchema omits
id and createdAt). -/
structure InsertFocusSession where
  startTime : Int
  endTime : Option Int
  durationMinutes : Option Int
  sessionType : String
  taskId : Option String
deriving DecidableEq, Repr

/-- MemStorage.createFocusSession (storage.ts lines 97-109): spreads the
insert payload and applies the JS `x || null` coercion to endTime,
durationMinutes and taskId.  A Date object is always truthy, so the
endTime coercion only turns null into null; the number 0 and the empty
string are falsy, so a zero durationMinutes and an empty taskId become
null.  `id` stands for the generated UUID and `now` for the `new Date()`
creation timestamp. -/
def createFocusSession (ins : InsertFocusSession) (id : String) (now : Int) :
    FocusSession :=
  { id := id
    startTime := ins.startTime
    endTime := ins.endTime
    durationMinutes :=
      match ins.durationMinutes with
      | some v => if v = 0 then none else some v
      | none => none
    sessionType := ins.sessionType
    taskId :=
      match ins.taskId with
      | some t => if t = "" then none else some t
      | none => none
    createdAt := now }

/-- The in-memory focus-session map of MemStorage, keyed by id. -/
def SessionStore := String → Option FocusSession

/-- MemStorage.updateFocusSession (storage.ts lines 111-117) restricted to
the store update it performs: replace the record under `id`. -/
def putSession (s : SessionStore) (id : String) (fs : FocusSession) : SessionStore :=
  fun k => if k = id then some fs else s k

/-- The POST /api/focus-sessions/start handler (routes.ts lines 96-110)
composed with MemStorage.createFocusSession: the handler builds the
payload with `startTime = now`, `sessionType = req.body.sessionType ||
"focus"`, `taskId = req.body.taskId || null`, `endTime = null` and
`durationMinutes = null`, then stores it. -/
def startSession (reqSessionType : Option String) (reqTaskId : Option String)
    (id : String) (now : Int) : FocusSession :=
  createFocusSession
    { startTime := now
      sessionType :=
        match reqSessionType with
        | some t => if t = "" then "focus" else t
        | none => "focus"
      taskId :=
        match reqTaskId with
        | some t => if t = "" then none else some t
        | none => none
      endTime := none
      durationMinutes := none }
    id now

/-- The POST /api/focus-sessions/end handler (routes.ts lines 112-138):
look the session up (404 when absent), set `endTime = now` and
`durationMinutes = Math.floor((now - startTime) / 60000)` (floor division,
modelled by Int.fdiv), and persist via updateFocusSession.  Returns the
resulting store together with the response. -/
def endSession (s : SessionStore) (id : String) (now : Int) :
    SessionStore × Except RouteError FocusSession :=
  match s id with
  | none => (s, .error .notFound)
  | some sess =>
    let durationMinutes := Int.fdiv (now - sess.startTime) 60000
    let updated := { sess with
                       endTime := some now
                       durationMinutes := some durationMinutes }
    (putSession s id updated, .ok updated)

/-- A strictly monotone rank of calendar days: later days in the
year-month-day lexicographic order get larger ranks (proof device only). -/
def civilMeasure (d : CivilDay) : Int :=
  d.year * 500 + (d.month : Int) * 40 + (d.day : Int)

/-! ### Concrete fixtures used by witnesses -/

/-- A stored habit last completed on 2024-01-15. -/
def habitB : Habit :=
  { id := "h1", name := "Run", description := none, frequency := "daily",
    currentStreak := 3, bestStreak := 5,
    lastCompletedAt := some ⟨2024, 0, 15⟩, createdAt := ⟨2024, 0, 1⟩ }

/-- A habit store holding exactly `habitB` under id h1. -/
def storeB : HabitStore := fun k => if k = "h1" then some habitB else none

/-- A stored habit last completed on 2024-01-14. -/
def habitC : Habit :=
  { id := "h1", name := "Run", description := none, frequency := "daily",
    currentStreak := 3, bestStreak := 5,
    lastCompletedAt := some ⟨2024, 0, 14⟩, createdAt := ⟨2024, 0, 1⟩ }

/-- A habit store holding exactly `habitC` under id h1. -/
def storeC : HabitStore := fun k => if k = "h1" then some habitC else none

/-- The record the check-in handler persists for `habitC` on 2024-01-15. -/
def habitC2 : Habit :=
  { habitC with currentStreak := 4, bestStreak := 5,
                lastCompletedAt := some ⟨2024, 0, 15⟩ }

/-- A stored habit last completed on 2024-01-12 (three days before
2024-01-15). -/
def habitD : Habit :=
  { id := "h1", name := "Run", description := none, frequency := "daily",
    currentStreak := 7, bestStreak := 9,
    lastCompletedAt := some ⟨2024, 0, 12⟩, createdAt := ⟨2024, 0, 1⟩ }

/-- A habit store holding exactly `habitD` under id h1. -/
def storeD : HabitStore := fun k => if k = "h1" then some habitD else none

/-- An open focus session that started at epoch millisecond 30000. -/
def sessionA : FocusSession :=
  { id := "s1", startTime := 30000, endTime := none, durationMinutes := none,
    sessionType := "focus", taskId := none, createdAt := 30000 }

/-- A session store holding exactly `sessionA` under id s1. -/
def storeA : SessionStore := fun k => if k = "s1" then some sessionA else none

/-- An already-closed focus session (endTime set). -/
def sessionB : FocusSession :=
  { id := "s2", startTime := 1000, endTime := some 200000,
    durationMinutes := some 3, sessionType := "focus", taskId := none,
    createdAt := 1000 }

/-- A session store holding exactly `sessionB` under id s2. -/
def sessionStoreB : SessionStore :=
  fun k => if k = "s2" then some sessionB else none

/-- An insert payload carrying a zero durationMinutes. -/
def insertA : InsertFocusSession :=
  { startTime := 0, endTime := none, durationMinutes := some 0,
    sessionType := "focus", taskId := none }

/-! ### Calendar lemmas -/

/-- The componentwise comparison used by the source is exactly equality of
calendar days. -/
theorem isSameDay_iff (a b : CivilDay) : isSameDay a b = true ↔ a = b := by
  cases a; cases b
  simp only [isSameDay, Bool.and_eq_true, beq_iff_eq, CivilDay.mk.injEq]
  tauto

/-- Every month has at most 31 days. -/
theorem daysInMonth_le (y : Int) (m : Nat) : daysInMonth y m ≤ 31 := by
  unfold daysInMonth
  split_ifs <;> omega

/-- Stepping one day back strictly decreases the rank. -/
theorem civilMeasure_prevDay_lt (d : CivilDay) :
    civilMeasure (prevDay d) < civilMeasure d := by
  have h31 := daysInMonth_le d.year (d.month - 1)
  unfold prevDay
  split_ifs with h1 h2 <;> simp only [civilMeasure] <;> push_cast <;> omega

/-- Stepping back commutes with iteration. -/
theorem prevDayIter_succ_comm (k : Nat) (d : CivilDay) :
    prevDayIter (k + 1) d = prevDayIter k (prevDay d) := by
  induction k with
  | zero => rfl
  | succ n ih =>
    show prevDay (prevDayIter (n + 1) d) = prevDay (prevDayIter n (prevDay d))
    rw [ih]

/-- Stepping back one or more days strictly decreases the rank. -/
theorem civilMeasure_prevDayIter_lt (k : Nat) (d : CivilDay) :
    civilMeasure (prevDayIter (k + 1) d) < civilMeasure d := by
  induction k with
  | zero => exact civilMeasure_prevDay_lt d
  | succ n ih => exact lt_trans (civilMeasure_prevDay_lt _) ih

/-- The previous calendar day is never the day itself. -/
theorem prevDay_ne_self (d : CivilDay) : prevDay d ≠ d := by
  intro h
  have := civilMeasure_prevDay_lt d
  rw [h] at this
  omega

/-- A day two or more days back is neither the day itself nor the day
immediately before it. -/
theorem prevDayIter_ne (k : Nat) (hk : 2 ≤ k) (d : CivilDay) :
    prevDayIter k d ≠ d ∧ prevDayIter k d ≠ prevDay d := by
  obtain ⟨j, rfl⟩ : ∃ j, k = j + 2 := ⟨k - 2, by omega⟩
  constructor
  · intro h
    have := civilMeasure_prevDayIter_lt (j + 1) d
    rw [h] at this
    omega
  · intro h
    have h1 : prevDayIter (j + 2) d = prevDayIter (j + 1) (prevDay d) :=
      prevDayIter_succ_comm (j + 1) d
    have := civilMeasure_prevDayIter_lt j (prevDay d)
    rw [← h1, h] at this
    omega

/-! ### Check-in lemmas -/

/-- Anatomy of a successful check-in: the best streak is the maximum of the
old best streak and the new current streak, the current streak either
increments or resets to 1, the completion stamp becomes `now`, and every
other field is carried over unchanged. -/
theorem checkIn_ok_shape (h : Habit) (now : CivilDay) (h2 : Habit)
    (hok : checkIn h now = .ok h2) :
    h2.bestStreak = max h.bestStreak h2.currentStreak ∧
    (h2.currentStreak = h.currentStreak + 1 ∨ h2.currentStreak = 1) ∧
    h2.id = h.id ∧ h2.name = h.name ∧ h2.description = h.description ∧
    h2.frequency = h.frequency ∧ h2.createdAt = h.createdAt ∧
    h2.lastCompletedAt = some now := by
  unfold checkIn at hok
  cases hl : h.lastCompletedAt with
  | none =>
    rw [hl] at hok
    simp only [Except.ok.injEq] at hok
    subst hok
    simp
  | some last =>
    rw [hl] at hok
    by_cases hsame : isSameDay last now
    · simp [hsame] at hok
    · simp only [hsame, Bool.false_eq_true, if_false, Except.ok.injEq] at hok
      subst hok
      by_cases hc : isSameDay last (prevDay now)
      · simp [hc]
      · simp [hc]

/-! ### Claim theorems: habits -/

/-- C1: For every habit whose lastCompletedAt falls on the same calendar day
as now (compared by year, month and day-of-month components), the check-in
handler fails with AlreadyCheckedInToday and the habit record is left
unmodified: the store is returned exactly as it was. -/
theorem checkIn_sameDay_rejects (s : HabitStore) (id : String) (habit : Habit)
    (now last : CivilDay) (hs : s id = some habit)
    (hlast : habit.lastCompletedAt = some last)
    (hyear : last.year = now.year) (hmonth : last.month = now.month)
    (hday : last.day = now.day) :
    checkInRoute s id now = (s, .error .alreadyCheckedInToday) := by
  have hsd : isSameDay last now = true := by
    simp [isSameDay, hyear, hmonth, hday]
  simp only [checkInRoute, hs, checkIn, hlast, hsd, if_true]

/-- C1 witness: checking habitB in again on 2024-01-15 is rejected and the
store is unchanged. -/
theorem checkIn_sameDay_rejects_witness :
    checkInRoute storeB "h1" ⟨2024, 0, 15⟩ = (storeB, .error .alreadyCheckedInToday) :=
  checkIn_sameDay_rejects storeB "h1" habitB ⟨2024, 0, 15⟩ ⟨2024, 0, 15⟩
    rfl rfl rfl rfl rfl

/-- C2: For every habit whose lastCompletedAt is exactly one calendar day
before the calendar day of now, the check-in succeeds and the stored
current streak becomes the old current streak plus one. -/
theorem checkIn_consecutive_increments (s : HabitStore) (id : String)
    (habit : Habit) (now : CivilDay) (hs : s id = some habit)
    (hlast : habit.lastCompletedAt = some (prevDay now)) :
    ∃ h2, checkInRoute s id now = (putHabit s id h2, .ok h2) ∧
      h2.currentStreak = habit.currentStreak + 1 := by
  have hne : isSameDay (prevDay now) now = false := by
    rw [Bool.eq_false_iff]
    intro hb
    exact prevDay_ne_self now ((isSameDay_iff _ _).1 hb)
  have hcons : isSameDay (prevDay now) (prevDay now) = true :=
    (isSameDay_iff _ _).2 rfl
  refine ⟨{ habit with
            currentStreak := habit.currentStreak + 1
            bestStreak := max habit.bestStreak (habit.currentStreak + 1)
            lastCompletedAt := some now }, ?_, rfl⟩
  simp only [checkInRoute, hs, checkIn, hlast, hne, hcons,
    Bool.false_eq_true, if_false, if_true]

/-- C2 witness: checking habitC (last completed 2024-01-14) in on
2024-01-15 increments the streak. -/
theorem checkIn_consecutive_increments_witness :
    ∃ h2, checkInRoute storeC "h1" ⟨2024, 0, 15⟩ = (putHabit storeC "h1" h2, .ok h2) ∧
      h2.currentStreak = habitC.currentStreak + 1 :=
  checkIn_consecutive_increments storeC "h1" habitC ⟨2024, 0, 15⟩ rfl rfl

/-- C3: For every habit whose lastCompletedAt is absent (first-ever
check-in) or two or more calendar days before the calendar day of now, the
check-in succeeds and sets the current streak to exactly 1 (never 0). -/
theorem checkIn_gap_resets (s : HabitStore) (id : String) (habit : Habit)
    (now : CivilDay) (hs : s id = some habit)
    (hlast : habit.lastCompletedAt = none ∨
      ∃ k, 2 ≤ k ∧ habit.lastCompletedAt = some (prevDayIter k now)) :
    ∃ h2, checkInRoute s id now = (putHabit s id h2, .ok h2) ∧
      h2.currentStreak = 1 := by
  rcases hlast with hnone | ⟨k, hk, hsome⟩
  · refine ⟨{ habit with
              currentStreak := 1
              bestStreak := max habit.bestStreak 1
              lastCompletedAt := some now }, ?_, rfl⟩
    simp only [checkInRoute, hs, checkIn, hnone]
  · obtain ⟨hne1, hne2⟩ := prevDayIter_ne k hk now
    have hb1 : isSameDay (prevDayIter k now) now = false := by
      rw [Bool.eq_false_iff]
      intro hb
      exact hne1 ((isSameDay_iff _ _).1 hb)
    have hb2 : isSameDay (prevDayIter k now) (prevDay now) = false := by
      rw [Bool.eq_false_iff]
      intro hb
      exact hne2 ((isSameDay_iff _ _).1 hb)
    refine ⟨{ habit with
              currentStreak := 1
              bestStreak := max habit.bestStreak 1
              lastCompletedAt := some now }, ?_, rfl⟩
    simp only [checkInRoute, hs, checkIn, hsome, hb1, hb2,
      Bool.false_eq_true, if_false]

/-- C3 witness: checking habitD (last completed three days before
2024-01-15) in on 2024-01-15 resets the streak to 1. -/
theorem checkIn_gap_resets_witness :
    ∃ h2, checkInRoute storeD "h1" ⟨2024, 0, 15⟩ = (putHabit storeD "h1" h2, .ok h2) ∧
      h2.currentStreak = 1 :=
  checkIn_gap_resets storeD "h1" habitD ⟨2024, 0, 15⟩ rfl
    (Or.inr ⟨3, by omega, rfl⟩)

/-- C4: Habit creation starts both streak counters at 0, every successful
check-in sets the best streak to the maximum of the old best streak and the
new current streak, and consequently every habit reachable by creation and
check-ins satisfies bestStreak ≥ currentStreak. -/
theorem habit_best_ge_current :
    (∀ ins id now, (createHabit ins id now).currentStreak = 0 ∧
      (createHabit ins id now).bestStreak = 0) ∧
    (∀ h now h2, checkIn h now = .ok h2 →
      h2.bestStreak = max h.bestStreak h2.currentStreak) ∧
    (∀ h, ReachableHabit h → h.currentStreak ≤ h.bestStreak) := by
  refine ⟨fun ins id now => ⟨rfl, rfl⟩,
    fun h now h2 hok => (checkIn_ok_shape h now h2 hok).1, ?_⟩
  intro h hr
  induction hr with
  | created ins id now => exact le_refl 0
  | checkedIn h now h2 _ hok _ =>
    rw [(checkIn_ok_shape h now h2 hok).1]
    exact le_max_right _ _

/-- C4 witness: a freshly created habit satisfies the invariant. -/
theorem habit_best_ge_current_witness :
    (createHabit ⟨"Run", none, "daily"⟩ "h1" ⟨2024, 0, 1⟩).currentStreak ≤
      (createHabit ⟨"Run", none, "daily"⟩ "h1" ⟨2024, 0, 1⟩).bestStreak :=
  habit_best_ge_current.2.2 _ (ReachableHabit.created ⟨"Run", none, "daily"⟩ "h1" ⟨2024, 0, 1⟩)

/-- C8: A successful check-in persists exactly currentStreak, bestStreak
and lastCompletedAt = now on the habit: the updated record is stored under
the habit id, its completion stamp is now, and its id, name, description,
frequency and createdAt are unchanged from the stored habit. -/
theorem checkIn_persists_exactly_three_fields (s : HabitStore) (id : String)
    (habit : Habit) (now : CivilDay) (s2 : HabitStore) (h2 : Habit)
    (hs : s id = some habit)
    (hroute : checkInRoute s id now = (s2, .ok h2)) :
    s2 id = some h2 ∧ h2.lastCompletedAt = some now ∧
    h2.id = habit.id ∧ h2.name = habit.name ∧
    h2.description = habit.description ∧ h2.frequency = habit.frequency ∧
    h2.createdAt = habit.createdAt := by
  simp only [checkInRoute, hs] at hroute
  cases hok : checkIn habit now with
  | error e =>
    rw [hok] at hroute
    simp at hroute
  | ok h3 =>
    rw [hok] at hroute
    simp only [Prod.mk.injEq, Except.ok.injEq] at hroute
    obtain ⟨hs2, hh⟩ := hroute
    subst hh
    subst hs2
    have hsh := checkIn_ok_shape habit now h3 hok
    exact ⟨by simp [putHabit], hsh.2.2.2.2.2.2.2, hsh.2.2.1, hsh.2.2.2.1,
      hsh.2.2.2.2.1, hsh.2.2.2.2.2.1, hsh.2.2.2.2.2.2.1⟩

/-- C8 witness: the concrete check-in of habitC on 2024-01-15 persists the
expected record and leaves the other fields unchanged. -/
theorem checkIn_persists_exactly_three_fields_witness :
    (putHabit storeC "h1" habitC2) "h1" = some habitC2 ∧
    habitC2.lastCompletedAt = some ⟨2024, 0, 15⟩ ∧
    habitC2.id = habitC.id ∧ habitC2.name = habitC.name ∧
    habitC2.description = habitC.description ∧
    habitC2.frequency = habitC.frequency ∧
    habitC2.createdAt = habitC.createdAt :=
  checkIn_persists_exactly_three_fields storeC "h1" habitC ⟨2024, 0, 15⟩
    (putHabit storeC "h1" habitC2) habitC2 rfl rfl

/-! ### Claim theorems: focus sessions -/

/-- C5 (amended): For every session ended at time now, the end handler sets
endTime = now and durationMinutes = floor((now - startTime) / 60000) with
the floor taken toward negative infinity (Math.floor), and a negative
result (end before start) is not prevented and persists as a negative
value. -/
theorem endSession_sets_floor_duration (s : SessionStore) (id : String)
    (sess : FocusSession) (now : Int) (hs : s id = some sess) :
    ∃ u, endSession s id now = (putSession s id u, .ok u) ∧
      u.endTime = some now ∧
      u.durationMinutes = some (Int.fdiv (now - sess.startTime) 60000) ∧
      (now < sess.startTime → Int.fdiv (now - sess.startTime) 60000 < 0) := by
  refine ⟨{ sess with
            endTime := some now
            durationMinutes := some (Int.fdiv (now - sess.startTime) 60000) },
    ?_, rfl, rfl, ?_⟩
  · simp only [endSession, hs]
  · intro hlt
    rw [Int.fdiv_eq_ediv _ (by norm_num)]
    exact Int.ediv_neg' (by omega) (by norm_num)

/-- C5 witness: ending the session that started at 30000 ms at now = 0
stores endTime = 0 and a negative floored duration. -/
theorem endSession_sets_floor_duration_witness :
    ∃ u, endSession storeA "s1" 0 = (putSession storeA "s1" u, .ok u) ∧
      u.endTime = some (0 : Int) ∧
      u.durationMinutes = some (Int.fdiv ((0 : Int) - sessionA.startTime) 60000) ∧
      ((0 : Int) < sessionA.startTime →
        Int.fdiv ((0 : Int) - sessionA.startTime) 60000 < 0) :=
  endSession_sets_floor_duration storeA "s1" sessionA 0 rfl

/-- C5 counterexample: the stored duration is the floor toward negative
infinity, not the truncation toward zero the claim also asserts.  Ending
the stored session that started at 30000 ms at now = 0 stores
durationMinutes = -1, while truncating (0 - 30000) / 60000 toward zero
(Int.tdiv) gives 0, so the stored value differs from the toward-zero
reading of the claim at this input. -/
theorem endSession_not_trunc_toward_zero :
    ∃ u, (endSession storeA "s1" 0).2 = .ok u ∧
      u.durationMinutes = some (-1) ∧
      Int.tdiv ((0 : Int) - sessionA.startTime) 60000 = 0 ∧
      u.durationMinutes ≠ some (Int.tdiv ((0 : Int) - sessionA.startTime) 60000) := by
  refine ⟨_, rfl, by decide, by decide, by decide⟩

/-- C6: Ending an already-closed session (endTime set) does not fail: the
handler overwrites endTime with the new now and recomputes
durationMinutes from the same unchanged original startTime. -/
theorem endSession_reclose_overwrites (s : SessionStore) (id : String)
    (sess : FocusSession) (e now : Int) (hs : s id = some sess)
    (_hclosed : sess.endTime = some e) :
    ∃ u, endSession s id now = (putSession s id u, .ok u) ∧
      u.endTime = some now ∧ u.startTime = sess.startTime ∧
      u.durationMinutes = some (Int.fdiv (now - sess.startTime) 60000) := by
  refine ⟨{ sess with
            endTime := some now
            durationMinutes := some (Int.fdiv (now - sess.startTime) 60000) },
    ?_, rfl, rfl, rfl⟩
  simp only [endSession, hs]

/-- C6 witness: re-ending the already-closed sessionB at now = 181000
overwrites the end time and recomputes the duration from the original
start time 1000. -/
theorem endSession_reclose_overwrites_witness :
    ∃ u, endSession sessionStoreB "s2" 181000 = (putSession sessionStoreB "s2" u, .ok u) ∧
      u.endTime = some (181000 : Int) ∧ u.startTime = sessionB.startTime ∧
      u.durationMinutes = some (Int.fdiv ((181000 : Int) - sessionB.startTime) 60000) :=
  endSession_reclose_overwrites sessionStoreB "s2" sessionB 200000 181000 rfl rfl

/-- C7: For every session id that does not exist in the store, the end
handler fails with NotFound and returns the store unmodified. -/
theorem endSession_missing_notFound (s : SessionStore) (id : String)
    (now : Int) (hs : s id = none) :
    endSession s id now = (s, .error .notFound) := by
  simp only [endSession, hs]

/-- C7 witness: ending a session id absent from storeA fails with NotFound
and leaves the store untouched. -/
theorem endSession_missing_notFound_witness :
    endSession storeA "nope" 5 = (storeA, .error .notFound) :=
  endSession_missing_notFound storeA "nope" 5 rfl

/-- C9: Every start call at time now creates a session with
startTime = now, endTime = null and durationMinutes = null. -/
theorem startSession_fresh (reqSessionType reqTaskId : Option String)
    (id : String) (now : Int) :
    (startSession reqSessionType reqTaskId id now).startTime = now ∧
    (startSession reqSessionType reqTaskId id now).endTime = none ∧
    (startSession reqSessionType reqTaskId id now).durationMinutes = none :=
  ⟨rfl, rfl, rfl⟩

/-- C10: A creation payload whose durationMinutes is 0 is stored with
durationMinutes = null (the JS falsy coercion maps 0 to null), and no
creation whatsoever can store durationMinutes = 0. -/
theorem createFocusSession_zero_becomes_null :
    (∀ ins id now, ins.durationMinutes = some 0 →
      (createFocusSession ins id now).durationMinutes = none) ∧
    (∀ ins id now, (createFocusSession ins id now).durationMinutes ≠ some 0) := by
  constructor
  · intro ins id now h
    simp [createFocusSession, h]
  · intro ins id now h
    simp only [createFocusSession] at h
    split at h
    · split at h <;> simp_all
    · simp_all

/-- C10 witness: creating a session from a payload with durationMinutes = 0
stores null. -/
theorem createFocusSession_zero_becomes_null_witness :
    (createFocusSession insertA "s1" 0).durationMinutes = none :=
  createFocusSession_zero_becomes_null.1 insertA "s1" 0 rfl

end FocusFlow
